import Mathlib

/-!
# Verification of PyGistAPI against its specification

Shallow embedding of the PyGistApi client library
(`PyGistApi/base.py`, `PyGistApi/utils.py`, `PyGistApi/errors.py`,
`PyGistApi/async_gist_api.py`) in Lean 4, together with theorems settling
the frozen claims about the request executor's retry loop, the auth-header
construction, and the resource-operation layer's validation behaviour.

Modelling conventions:
* Python dicts are association lists (`Dict`), with assignment modelled by
  `dictSet` (replace the first occurrence of the key, else append).
* The network transport is abstracted as a function from the 1-based attempt
  index (the Python variable `tries` after its increment) to an outcome:
  a response (status code plus an optionally-decodable JSON body, where
  `none` stands for a body that raises `json.decoder.JSONDecodeError`),
  a `httpx.TimeoutException`, or any other exception.
* At the resource-operation layer, each `_async_request` invocation is one
  "network call"; operations return the list of request descriptors they
  issued, in order, alongside their result.
* Python exceptions are `Except PyErr` values.
-/

namespace PyGistApi

/-- JSON-ish values appearing in request/response bodies. -/
inductive JVal where
  | jnum (n : Int)
  | jstr (s : String)
  | jbool (b : Bool)
  | jnull
  | jdict (d : List (String × JVal))

/-- A Python dict with string keys, as an association list. -/
abbrev Dict := List (String × JVal)

/-- Python dict lookup `d[k]` / `k in d` (first binding wins). -/
def dictGet (d : Dict) (k : String) : Option JVal :=
  match d with
  | [] => none
  | (k', v) :: rest => if k' = k then some v else dictGet rest k

/-- Python dict assignment `d[k] = v`: replace the binding if the key is
present, otherwise append it. -/
def dictSet (d : Dict) (k : String) (v : JVal) : Dict :=
  match d with
  | [] => [(k, v)]
  | (k', v') :: rest => if k' = k then (k, v) :: rest else (k', v') :: dictSet rest k v

/-- `k in x` for a JSON value `x`: meaningful when `x` is a dict (the only
shape the operations layer probes with `in`). -/
def jvalHasKey (v : JVal) (k : String) : Bool :=
  match v with
  | .jdict d => (dictGet d k).isSome
  | _ => false

/-- Python exception kinds raised by the library (`errors.py`, plus the
built-ins and httpx exceptions the code raises). -/
inductive PyErr where
  | authenticationError (msg : String)
  | invalidArg (msg : String)
  | unExpectedError (msg : String)
  | valueError (msg : String)
  | fileNotFoundError (msg : String)
  | timeoutException (msg : String)
  | attributeError
  deriving DecidableEq, Repr

/-! ## The request executor (`Requester._async_request`, base.py lines 41-89)

```python
tries = 0
resp = None
while resp is None and tries <= self.retries:
    tries += 1
    try:
        ... resp = await client.request(...)
    except httpx.TimeoutException as e:
        err = f"Timeout error: {e}"
        if tries >= self.retries:
            raise httpx.TimeoutException(err)
    except Exception as e:
        err = f"An Unexpected error occurred: {e}"
        if tries >= self.retries:
            raise UnExpectedError(err)
    await asyncio.sleep(self.sleep_time)
try:
    json_ = resp.json()
except json.decoder.JSONDecodeError:
    json_ = {}
json_["code"] = resp.status_code
return json_
```
-/

/-- Outcome of one network attempt: a response (status code and decoded JSON
body, `none` when `resp.json()` raises `JSONDecodeError`), a
`httpx.TimeoutException` with its message, or any other exception. -/
inductive AttemptOutcome where
  | ok (status : Int) (body : Option Dict)
  | timeout (msg : String)
  | failure (msg : String)

/-- Whether an attempt outcome is a transport failure (an exception). -/
def isFailOutcome : AttemptOutcome → Bool
  | .ok _ _ => false
  | .timeout _ => true
  | .failure _ => true

/-- How the `while` loop of `_async_request` ends. -/
inductive LoopRes where
  | gotResp (status : Int) (body : Option Dict)
  | raised (e : PyErr)
  | noResp

/-- The `while` loop of `_async_request`. `tries` is the Python counter before
the increment at the top of the iteration; `fuel` equals
`retries + 1 - tries`, so `fuel = 0` corresponds exactly to the loop guard
`tries <= self.retries` being false (each iteration increments `tries` by one
and decrements `fuel` by one, preserving the correspondence).
Returns the loop result together with the number of attempts made and the
number of `asyncio.sleep` suspensions executed. A `raise` inside an `except`
block propagates before the `await asyncio.sleep` line is reached, so no
sleep is counted for a raising attempt. -/
def loopAux (transport : Nat → AttemptOutcome) (retries : Nat) :
    Nat → Nat → LoopRes × Nat × Nat
  | 0, _ => (.noResp, 0, 0)
  | fuel + 1, tries =>
    let t := tries + 1
    match transport t with
    | .ok status body => (.gotResp status body, 1, 1)
    | .timeout msg =>
      if retries ≤ t then
        (.raised (.timeoutException ("Timeout error: " ++ msg)), 1, 0)
      else
        let r := loopAux transport retries fuel t
        (r.1, r.2.1 + 1, r.2.2 + 1)
    | .failure msg =>
      if retries ≤ t then
        (.raised (.unExpectedError ("An Unexpected error occurred: " ++ msg)), 1, 0)
      else
        let r := loopAux transport retries fuel t
        (r.1, r.2.1 + 1, r.2.2 + 1)

/-- Result of one `_async_request` execution: attempts made, sleeps
performed, and the returned envelope or raised exception. -/
structure RunResult where
  attempts : Nat
  sleeps : Nat
  result : Except PyErr Dict

/-- `Requester._async_request` with `self.retries = retries`, abstracted over
the transport. The `noResp` case (loop exhausted with `resp` still `None`) is
`resp.json()` on `None`, a Python `AttributeError`; it is unreachable from
the initial state `tries = 0`. -/
def asyncRequest (retries : Nat) (transport : Nat → AttemptOutcome) : RunResult :=
  let out := loopAux transport retries (retries + 1) 0
  match out.1 with
  | .gotResp status body =>
    ⟨out.2.1, out.2.2, .ok (dictSet (body.getD []) "code" (.jnum status))⟩
  | .raised e => ⟨out.2.1, out.2.2, .error e⟩
  | .noResp => ⟨out.2.1, out.2.2, .error .attributeError⟩

/-! ## Credential resolution (`utils.get_auth_token`) and the constructor
(`Requester.__init__`, base.py lines 27-39)

```python
self.auth_token = auth_token or get_auth_token()
...
self.headers = self.BASE_HEADERS.copy()
self.headers["Authorization"] = f"Bearer {auth_token}"
```
-/

/-- Python truthiness of an `Optional[str]`: `None` and `""` are falsy. -/
def truthy : Option String → Bool
  | none => false
  | some s => !s.isEmpty

/-- `f"...{x}..."` interpolation of an `Optional[str]`: `None` prints as
the literal `"None"`. -/
def pyStrOpt : Option String → String
  | none => "None"
  | some s => s

/-- Ambient configuration read by `get_auth_token`: the module globals
`PyGistApi.auth_token` (from env var `AUTH_TOKEN`) and
`PyGistApi.auth_token_path` (from env var `AUTH_TOKEN_PATH`), plus the file
system used when a token path is configured. -/
structure TokenEnv where
  auth_token : Option String
  auth_token_path : Option String
  readFile : String → String

/-- `utils.get_auth_token`: a file-sourced token is read and stripped
(Python `str.strip`, modelled by `String.trim`) and must start with
`"ghp_"`; else a directly-set token is returned; else an
`AuthenticationError` is raised. -/
def get_auth_token (env : TokenEnv) : Except PyErr String :=
  if truthy env.auth_token_path then
    let token := (env.readFile (env.auth_token_path.getD "")).trim
    if !token.startsWith "ghp_" then .error (.valueError "Invalid Token Format")
    else .ok token
  else if truthy env.auth_token then
    .ok (env.auth_token.getD "")
  else
    .error (.authenticationError
      ("You can set your auth token using PyGistApi.auth_token='your auth token' "
        ++ "or by setting the environment variable: AUTH_TOKEN=<AUTH-TOKEN>"))

/-- The fields of a constructed `Requester` that the claims concern:
`self.auth_token` (the resolved credential) and `self.headers`. -/
structure RequesterState where
  auth_token : String
  headers : List (String × String)

/-- `Requester.__init__` with constructor argument `auth_token` (an
`Optional[str]`) and API version `apiVersion` (the `X-GitHub-Api-Version`
base header value). `self.auth_token` is `auth_token or get_auth_token()`;
the `Authorization` header is built by the f-string
`f"Bearer {auth_token}"` from the constructor parameter. -/
def requesterInit (env : TokenEnv) (auth_token : Option String)
    (apiVersion : String) : Except PyErr RequesterState :=
  let resolved : Except PyErr String :=
    if truthy auth_token then .ok (auth_token.getD "") else get_auth_token env
  match resolved with
  | .error e => .error e
  | .ok tok =>
    .ok { auth_token := tok,
          headers := [("Accept", "application/vnd.github+json"),
                      ("X-GitHub-Api-Version", apiVersion),
                      ("Authorization", "Bearer " ++ pyStrOpt auth_token)] }

/-- Look up a header value in a `RequesterState`. -/
def headerGet (st : RequesterState) (k : String) : Option String :=
  match st.headers.find? (fun p => p.1 = k) with
  | some p => some p.2
  | none => none

/-! ## The resource-operations layer (`async_gist_api.py`)

Each operation is modelled as a function returning its Python result
(`Except PyErr Dict`) together with the ordered list of request descriptors
it passed to `_async_request` — one descriptor per executor invocation, so
an empty list means zero network calls. The executor's behaviour is
abstracted by `OpEnv.respond`, the envelope a given `_async_request` call
returns. -/

/-- One `_async_request` invocation: HTTP method, endpoint suffix appended
to `API_URL`, JSON body (`data`) and query parameters (`params`). -/
structure RequestDescriptor where
  method : String
  endpoint : String
  data : Option Dict
  params : Option Dict

/-- Environment of a resource operation: the executor's response to each
issued request, and the file system (`os.path.isfile` / `open().read()`). -/
structure OpEnv where
  respond : RequestDescriptor → Dict
  isFile : String → Bool
  readFile : String → String

/-- A dynamically-typed Python argument value, as the operations layer
inspects it: an `int`, a `str`, a `list` of path strings, or `None`. -/
inductive PyVal where
  | int (n : Int)
  | str (s : String)
  | listStr (xs : List String)
  | pynone
  deriving DecidableEq, Repr

/-- `isinstance(v, int)`. -/
def pyIsInt : PyVal → Bool
  | .int _ => true
  | _ => false

/-- `isinstance(v, str)`. -/
def pyIsStr : PyVal → Bool
  | .str _ => true
  | _ => false

/-- `v > n` for an argument already known to be an `int` (the comparison is
short-circuited away for non-ints in the source). -/
def pyGt (v : PyVal) (n : Int) : Bool :=
  match v with
  | .int m => m > n
  | _ => false

/-- Embed a validated scalar argument into a JSON parameter value (applied
only to `int` and `str` arguments in the source). -/
def pyToJVal : PyVal → JVal
  | .int n => .jnum n
  | .str s => .jstr s
  | .listStr _ => .jnull
  | .pynone => .jnull

/-- `os.path.basename`: the text after the last `/`. -/
def basename (p : String) : String :=
  (p.splitOn "/").getLastD p

/-- The file-collection loop of `create_gist`, threading the mutable
`file_data` dict through the `for file in files` iteration: each listed path
that is a file on disk binds its base name to `{"content": <stripped text>}`
(later duplicates of a base name overwrite earlier ones, as Python dict
assignment does). -/
def collectFilesAux (env : OpEnv) (acc : Dict) : List String → Dict
  | [] => acc
  | f :: rest =>
    if env.isFile f then
      collectFilesAux env
        (dictSet acc (basename f) (.jdict [("content", .jstr ((env.readFile f).trim))])) rest
    else collectFilesAux env acc rest

/-- The `file_data` dict built by `create_gist`'s file-collection loop,
starting from the empty dict. -/
def collectFiles (env : OpEnv) (files : List String) : Dict :=
  collectFilesAux env [] files

/-- `AsyncGistClient.list_gists(per_page, page, since)`. -/
def list_gists (env : OpEnv) (per_page page : PyVal) (since : String) :
    Except PyErr Dict × List RequestDescriptor :=
  if !pyIsInt per_page || pyGt per_page 100 then
    (.error (.invalidArg "per_page should be an integer and less than 100"), [])
  else if !pyIsInt page then
    (.error (.invalidArg "page should be an integer"), [])
  else
    let params : Dict :=
      [("per_page", pyToJVal per_page), ("page", pyToJVal page), ("since", .jstr since)]
    let d : RequestDescriptor := ⟨"GET", "", none, some params⟩
    (.ok (env.respond d), [d])

/-- `AsyncGistClient.create_gist(content, file_name, description, public)`. -/
def create_gist (env : OpEnv) (content : PyVal) (file_name : Option String)
    (description : String) (pub : Bool) :
    Except PyErr Dict × List RequestDescriptor :=
  let data : Dict := [("description", .jstr description), ("public", .jbool pub)]
  let inline (c : String) : Except PyErr Dict × List RequestDescriptor :=
    let fname := if truthy file_name then file_name.getD "" else "untitled.txt"
    let data := dictSet data "files" (.jdict [(fname, .jdict [("content", .jstr c)])])
    let d : RequestDescriptor := ⟨"POST", "", some data, none⟩
    (.ok (env.respond d), [d])
  let fromDisk (files : List String) : Except PyErr Dict × List RequestDescriptor :=
    let file_data := collectFiles env files
    if file_data.isEmpty then
      (.error (.fileNotFoundError "Unable to locate the file(s)"), [])
    else
      let data := dictSet data "files" (.jdict file_data)
      let d : RequestDescriptor := ⟨"POST", "", some data, none⟩
      (.ok (env.respond d), [d])
  match content with
  | .listStr files => fromDisk files
  | .str c => if env.isFile c then fromDisk [c] else inline c
  | _ =>
    (.error (.invalidArg "content should be str, list of file paths, or a single file path"),
      [])

/-- `AsyncGistClient.update_gist(content, gist_id, filename_to_update,
description)`: fetches the gist (via `get_gist`, one executor call), then
short-circuits when the files mapping or the target file is missing, then
validates `content`, then issues the PATCH. -/
def update_gist (env : OpEnv) (content : PyVal) (gist_id : String)
    (filename_to_update : String) (description : String) :
    Except PyErr Dict × List RequestDescriptor :=
  let data : Dict := [("description", .jstr description)]
  let getDesc : RequestDescriptor := ⟨"GET", "/" ++ gist_id, none, none⟩
  let gist := env.respond getDesc
  match dictGet gist "files" with
  | none => (.ok [("message", .jstr "files not found")], [getDesc])
  | some files =>
    if !jvalHasKey files filename_to_update then
      (.ok [("message", .jstr ("File '" ++ filename_to_update ++ "' not found in the Gist."))],
        [getDesc])
    else
      match content with
      | .str c =>
        let contentText := if env.isFile c then (env.readFile c).trim else c
        let data := dictSet data "files"
          (.jdict [(filename_to_update, .jdict [("content", .jstr contentText)])])
        let patchDesc : RequestDescriptor := ⟨"PATCH", "/" ++ gist_id, some data, none⟩
        (.ok (env.respond patchDesc), [getDesc, patchDesc])
      | _ => (.error (.invalidArg "content should be str or a file path"), [getDesc])

/-- `AsyncGistClient.public_gists(per_page, page, since)`: validates the
pagination arguments but sends none of them. -/
def public_gists (env : OpEnv) (per_page page : PyVal) (since : String) :
    Except PyErr Dict × List RequestDescriptor :=
  if !pyIsInt per_page || pyGt per_page 100 then
    (.error (.invalidArg "per_page should be an integer and less than 100"), [])
  else if !pyIsInt page then
    (.error (.invalidArg "page should be an integer"), [])
  else
    let d : RequestDescriptor := ⟨"GET", "/public", none, none⟩
    (.ok (env.respond d), [d])

/-- `AsyncGistClient.starred_gists(per_page, page, since)`: validates the
pagination arguments but sends none of them. -/
def starred_gists (env : OpEnv) (per_page page : PyVal) (since : String) :
    Except PyErr Dict × List RequestDescriptor :=
  if !pyIsInt per_page || pyGt per_page 100 then
    (.error (.invalidArg "per_page should be an integer and less than 100"), [])
  else if !pyIsInt page then
    (.error (.invalidArg "page should be an integer"), [])
  else
    let d : RequestDescriptor := ⟨"GET", "/starred", none, none⟩
    (.ok (env.respond d), [d])

/-- `AsyncGistClient.gist_commits(gist_id, per_page, page)`. -/
def gist_commits (env : OpEnv) (gist_id : Int) (per_page page : PyVal) :
    Except PyErr Dict × List RequestDescriptor :=
  if !pyIsInt per_page || pyGt per_page 100 then
    (.error (.invalidArg "per_page should be an integer and less than 100"), [])
  else if !pyIsInt page then
    (.error (.invalidArg "page should be an integer"), [])
  else
    let params : Dict := [("per_page", pyToJVal per_page), ("page", pyToJVal page)]
    let d : RequestDescriptor := ⟨"GET", "/" ++ toString gist_id ++ "/commits", none, some params⟩
    (.ok (env.respond d), [d])

/-- `AsyncGistClient.gist_forks(gist_id, per_page, page)`. -/
def gist_forks (env : OpEnv) (gist_id : Int) (per_page page : PyVal) :
    Except PyErr Dict × List RequestDescriptor :=
  if !pyIsInt per_page || pyGt per_page 100 then
    (.error (.invalidArg "per_page should be an integer and less than 100"), [])
  else if !pyIsInt page then
    (.error (.invalidArg "page should be an integer"), [])
  else
    let params : Dict := [("per_page", pyToJVal per_page), ("page", pyToJVal page)]
    let d : RequestDescriptor := ⟨"GET", "/" ++ toString gist_id ++ "/forks", none, some params⟩
    (.ok (env.respond d), [d])

/-! ## Observation helpers and concrete environments used by the theorems -/

/-- Whether an executor/operation result is a returned value (no exception). -/
def resultIsOk : Except PyErr Dict → Bool
  | .ok _ => true
  | .error _ => false

/-- Whether a result is a raised `InvalidArg`. -/
def isInvalidArgRes : Except PyErr Dict → Bool
  | .error (.invalidArg _) => true
  | _ => false

/-- Does `hay` contain `needle` as a contiguous run of characters? -/
def listContainsSub (needle : List Char) : List Char → Bool
  | [] => needle.isEmpty
  | c :: t => needle.isPrefixOf (c :: t) || listContainsSub needle t

/-- Substring test: does the string `hay` contain `needle`? -/
def strContains (hay needle : String) : Bool :=
  listContainsSub needle.data hay.data

/-- An operation environment with an empty filesystem whose executor returns
an empty body for every request. -/
def envEmpty : OpEnv :=
  { respond := fun _ => [], isFile := fun _ => false, readFile := fun _ => "" }

/-- An environment whose executor returns a gist that carries a files
mapping containing `"a.txt"`. -/
def envWithFile : OpEnv :=
  { respond := fun _ =>
      [("files", .jdict [("a.txt", .jdict [("content", .jstr "old")])]), ("code", .jnum 200)],
    isFile := fun _ => false,
    readFile := fun _ => "" }

/-- An environment whose executor returns a gist with no files mapping. -/
def envNoFiles : OpEnv :=
  { respond := fun _ => [("code", .jnum 200)],
    isFile := fun _ => false,
    readFile := fun _ => "" }

/-- Ambient configuration with a directly-set module-level token and no
token file path. -/
def tokenEnvAmbient : TokenEnv :=
  { auth_token := some "ghp_ambient_token", auth_token_path := none, readFile := fun _ => "" }

/-- A transport that times out on every attempt. -/
def transportAllTimeout : Nat → AttemptOutcome := fun _ => .timeout "boom"

/-- A transport that raises a non-timeout connection error on every attempt. -/
def transportAllFailure : Nat → AttemptOutcome := fun _ => .failure "conn reset"

/-- A transport that times out on the first attempt and then returns an
HTTP 404 response with a JSON body. -/
def transportThenNotFound : Nat → AttemptOutcome := fun i =>
  if i = 1 then .timeout "t1" else .ok 404 (some [("message", .jstr "Not Found")])

/-- A transport that immediately returns an HTTP 204 response whose body
fails to decode as JSON. -/
def transportEmptyBody : Nat → AttemptOutcome := fun _ => .ok 204 none

/-! ## Helper lemmas -/

/-- Setting a key in a dict makes it retrievable: after `d[k] = v`,
`d[k]` is `v`. -/
theorem dictGet_dictSet_self (d : Dict) (k : String) (v : JVal) :
    dictGet (dictSet d k v) k = some v := by
  induction d with
  | nil => simp [dictSet, dictGet]
  | cons p rest ih =>
    rcases p with ⟨k', v'⟩
    by_cases h : k' = k <;> simp [dictSet, dictGet, h, ih]

/-- Loop invariant of `_async_request`'s `while` loop, for states satisfying
the fuel correspondence `fuel + tries = retries + 1` with at least one
iteration left: the loop either obtains a response, having slept once per
attempt (including after the successful final attempt), or raises, having
slept once per attempt except the raising one. In particular the loop never
exits with `resp` still `None`. -/
theorem loopAux_spec (transport : Nat → AttemptOutcome) (retries : Nat) :
    ∀ fuel tries, fuel + tries = retries + 1 → 1 ≤ fuel →
    ((∃ s b, (loopAux transport retries fuel tries).1 = .gotResp s b) ∧
        (loopAux transport retries fuel tries).2.2 =
          (loopAux transport retries fuel tries).2.1) ∨
      ((∃ e, (loopAux transport retries fuel tries).1 = .raised e) ∧
        (loopAux transport retries fuel tries).2.2 + 1 =
          (loopAux transport retries fuel tries).2.1) := by
  intro fuel
  induction fuel with
  | zero => intro tries _ h1; omega
  | succ f ih =>
    intro tries hsum _
    rcases htr : transport (tries + 1) with ⟨s, b⟩ | m | m
    · exact Or.inl ⟨⟨s, b, by simp [loopAux, htr]⟩, by simp [loopAux, htr]⟩
    · by_cases hg : retries ≤ tries + 1
      · exact Or.inr ⟨⟨.timeoutException ("Timeout error: " ++ m),
          by simp [loopAux, htr, hg]⟩, by simp [loopAux, htr, hg]⟩
      · have hf : 1 ≤ f := by omega
        have hsum' : f + (tries + 1) = retries + 1 := by omega
        rcases ih (tries + 1) hsum' hf with ⟨⟨s, b, h1⟩, h2⟩ | ⟨⟨e, h1⟩, h2⟩
        · exact Or.inl ⟨⟨s, b, by simp [loopAux, htr, hg, h1]⟩,
            by simp [loopAux, htr, hg]; omega⟩
        · exact Or.inr ⟨⟨e, by simp [loopAux, htr, hg, h1]⟩,
            by simp [loopAux, htr, hg]; omega⟩
    · by_cases hg : retries ≤ tries + 1
      · exact Or.inr ⟨⟨.unExpectedError ("An Unexpected error occurred: " ++ m),
          by simp [loopAux, htr, hg]⟩, by simp [loopAux, htr, hg]⟩
      · have hf : 1 ≤ f := by omega
        have hsum' : f + (tries + 1) = retries + 1 := by omega
        rcases ih (tries + 1) hsum' hf with ⟨⟨s, b, h1⟩, h2⟩ | ⟨⟨e, h1⟩, h2⟩
        · exact Or.inl ⟨⟨s, b, by simp [loopAux, htr, hg, h1]⟩,
            by simp [loopAux, htr, hg]; omega⟩
        · exact Or.inr ⟨⟨e, by simp [loopAux, htr, hg, h1]⟩,
            by simp [loopAux, htr, hg]; omega⟩

/-- If attempts `tries + 1 .. tries + j` are transport failures that stay
below the raise threshold and attempt `tries + (j + 1)` yields a response,
the loop stops there with that response, having made and slept through
exactly `j + 1` attempts. -/
theorem loopAux_reach (transport : Nat → AttemptOutcome) (retries : Nat) :
    ∀ j fuel tries (status : Int) (body : Option Dict), j + 1 ≤ fuel →
    (∀ i, 1 ≤ i → i < j + 1 →
      isFailOutcome (transport (tries + i)) = true ∧ tries + i < retries) →
    transport (tries + (j + 1)) = .ok status body →
    loopAux transport retries fuel tries = (.gotResp status body, j + 1, j + 1) := by
  intro j
  induction j with
  | zero =>
    intro fuel tries status body hfuel _ hok
    match fuel, hfuel with
    | f + 1, _ => simp [loopAux, hok]
  | succ j ih =>
    intro fuel tries status body hfuel hfail hok
    match fuel, hfuel with
    | f + 1, hfuel =>
      have h1 := hfail 1 (by omega) (by omega)
      have hrec : loopAux transport retries f (tries + 1) =
          (.gotResp status body, j + 1, j + 1) := by
        apply ih f (tries + 1) status body (by omega)
        · intro i hi1 hi2
          have := hfail (i + 1) (by omega) (by omega)
          rwa [show tries + (i + 1) = tries + 1 + i by omega] at this
        · rwa [show tries + 1 + (j + 1) = tries + (j + 1 + 1) by omega]
      have hlt : ¬ retries ≤ tries + 1 := by omega
      rcases htr : transport (tries + 1) with ⟨s, b⟩ | m | m
      · rw [htr] at h1; simp [isFailOutcome] at h1
      · simp [loopAux, htr, hlt, hrec]
      · simp [loopAux, htr, hlt, hrec]

/-- The executor's behaviour on a run whose `k`-th attempt is the first to
receive a response: it stops after exactly `k` attempts and returns the
decoded body (empty if undecodable) with the status code merged in under
`"code"`. -/
theorem asyncRequest_of_response (retries : Nat) (transport : Nat → AttemptOutcome)
    (k : Nat) (status : Int) (body : Option Dict) (hk : 1 ≤ k)
    (hfail : ∀ i, 1 ≤ i → i < k → isFailOutcome (transport i) = true ∧ i < retries)
    (hok : transport k = .ok status body) :
    asyncRequest retries transport =
      ⟨k, k, .ok (dictSet (body.getD []) "code" (.jnum status))⟩ := by
  rcases k with _ | j
  · omega
  · have hfuel : j + 1 ≤ retries + 1 := by
      rcases Nat.eq_zero_or_pos j with hj | hj
      · omega
      · have := hfail j (by omega) (by omega)
        omega
    have hreach := loopAux_reach transport retries j (retries + 1) 0 status body hfuel
      (fun i hi1 hi2 => by simpa using hfail i hi1 hi2) (by simpa using hok)
    simp [asyncRequest, hreach]

/-- The file-collection loop leaves its accumulator unchanged when none of
the listed paths is a file on disk. -/
theorem collectFilesAux_of_none (env : OpEnv) :
    ∀ (l : List String) (acc : Dict), (∀ p ∈ l, env.isFile p = false) →
      collectFilesAux env acc l = acc := by
  intro l
  induction l with
  | nil => intro acc _; rfl
  | cons f rest ih =>
    intro acc h
    have hf : env.isFile f = false := h f (by simp)
    simp [collectFilesAux, hf]
    exact ih acc (fun p hp => h p (by simp [hp]))

/-- A character list contains any contiguous run it was built around. -/
theorem listContainsSub_of_mid (needle pre post : List Char) :
    listContainsSub needle (pre ++ (needle ++ post)) = true := by
  induction pre with
  | nil =>
    simp only [List.nil_append]
    rcases needle with _ | ⟨c, t⟩
    · rcases post with _ | ⟨d, u⟩
      · rfl
      · simp [listContainsSub, List.isPrefixOf]
    · simp only [List.cons_append]
      simp [listContainsSub, List.isPrefixOf_iff_prefix]
  | cons c pre ih =>
    simp only [List.cons_append]
    simp [listContainsSub, List.isPrefixOf_iff_prefix, ih]

/-- A string references any string it was concatenated around. -/
theorem strContains_of_mid (pre needle post : String) :
    strContains (pre ++ needle ++ post) needle = true := by
  have h : (pre ++ needle ++ post).data = pre.data ++ (needle.data ++ post.data) := by
    simp [String.data_append]
  simp [strContains, h, listContainsSub_of_mid]

/-! ## Claim theorems -/

/-- Claim C1 (code bug). At the default configuration `retries = 2` with a
transport failing every attempt, `_async_request` performs exactly 2
attempts — not the `retry_count + 1 = 3` the claim (and the loop bound
`tries <= self.retries`) call for — because the raise guard
`if tries >= self.retries` fires one attempt early. The raised failure does
match the last attempt's kind (timeout vs. unexpected) and carries its
description. -/
theorem retry_budget_attempts_bug :
    (asyncRequest 2 transportAllTimeout).attempts = 2 ∧
    (asyncRequest 2 transportAllTimeout).attempts ≠ 2 + 1 ∧
    (asyncRequest 2 transportAllTimeout).result =
      .error (.timeoutException "Timeout error: boom") ∧
    (asyncRequest 2 transportAllFailure).result =
      .error (.unExpectedError "An Unexpected error occurred: conn reset") :=
  ⟨rfl, by decide, rfl, rfl⟩

/-- Claim C2 (counterexample). With `retries = 0` and a transport that times
out, the single attempt raises immediately and performs no suspension at
all: the claimed "suspension after every attempt, including the final
raising one" fails. -/
theorem no_sleep_after_raising_attempt :
    (asyncRequest 0 transportAllTimeout).attempts = 1 ∧
    (asyncRequest 0 transportAllTimeout).sleeps = 0 :=
  ⟨rfl, rfl⟩

/-- Claim C2 (amended). A `retry_delay` suspension occurs after every
attempt except a raising one: a run that returns a response sleeps once per
attempt (including after the first and after the successful final attempt),
while a run that ends by raising a transport failure sleeps once per attempt
except the final raising attempt. -/
theorem sleeps_eq_attempts_unless_raising (retries : Nat)
    (transport : Nat → AttemptOutcome) :
    (asyncRequest retries transport).sleeps =
      if resultIsOk (asyncRequest retries transport).result
      then (asyncRequest retries transport).attempts
      else (asyncRequest retries transport).attempts - 1 := by
  rcases loopAux_spec transport retries (retries + 1) 0 (by omega) (by omega) with
    ⟨⟨s, b, h1⟩, h2⟩ | ⟨⟨e, h1⟩, h2⟩
  · simp [asyncRequest, h1, resultIsOk, h2]
  · simp [asyncRequest, h1, resultIsOk]
    omega

/-- Claim C3 (code bug). When the constructor receives no explicit token and
the credential is resolved from ambient configuration, `self.auth_token`
holds the resolved token but the `Authorization` header is built from the
unresolved constructor parameter (`f"Bearer {auth_token}"`), yielding
`"Bearer None"` rather than `"Bearer " ++` the resolved credential. -/
theorem authorization_header_ignores_resolved_token :
    requesterInit tokenEnvAmbient none "2022-11-28" =
      .ok ⟨"ghp_ambient_token",
        [("Accept", "application/vnd.github+json"),
         ("X-GitHub-Api-Version", "2022-11-28"),
         ("Authorization", "Bearer None")]⟩ ∧
    "Bearer None" ≠ "Bearer " ++ "ghp_ambient_token" :=
  ⟨rfl, by decide⟩

/-- Claim C4 (counterexample). `update_gist` called with a non-string
`content` raises Invalid-Argument only after issuing the full fetch: one
request-executor call occurs, not the zero the claim states. -/
theorem update_gist_network_call_before_validation :
    (update_gist envWithFile (.int 42) "g1" "a.txt" "").1 =
      .error (.invalidArg "content should be str or a file path") ∧
    (update_gist envWithFile (.int 42) "g1" "a.txt" "").2.length = 1 :=
  ⟨rfl, rfl⟩

/-- Claim C4 (amended). For every `update_gist` call whose `content` is not
a string and whose fetched gist carries a files mapping containing the
target name, an Invalid-Argument failure is raised after exactly one
network call — the initial fetch — and no partial-update (PATCH) request is
issued. -/
theorem update_gist_nonstring_invalidArg_after_single_fetch (env : OpEnv)
    (content : PyVal) (gist_id filename description : String) (files : Dict)
    (hns : pyIsStr content = false)
    (hfiles : dictGet (env.respond ⟨"GET", "/" ++ gist_id, none, none⟩) "files" =
      some (.jdict files))
    (hhas : (dictGet files filename).isSome = true) :
    update_gist env content gist_id filename description =
      (.error (.invalidArg "content should be str or a file path"),
        [⟨"GET", "/" ++ gist_id, none, none⟩]) := by
  rcases content with n | c | xs | _
  · simp [update_gist, hfiles, jvalHasKey, hhas]
  · simp [pyIsStr] at hns
  · simp [update_gist, hfiles, jvalHasKey, hhas]
  · simp [update_gist, hfiles, jvalHasKey, hhas]

/-- Witness for the amended C4 theorem at a concrete input. -/
theorem update_gist_nonstring_invalidArg_witness :
    update_gist envWithFile (.int 7) "g9" "a.txt" "d" =
      (.error (.invalidArg "content should be str or a file path"),
        [⟨"GET", "/g9", none, none⟩]) :=
  update_gist_nonstring_invalidArg_after_single_fetch envWithFile (.int 7) "g9" "a.txt" "d"
    [("a.txt", .jdict [("content", .jstr "old")])] rfl rfl rfl

/-- Claim C5 (confirmed). Any received HTTP response — whatever its status
code, 4xx/5xx included — terminates the retry loop at that attempt and
becomes the returned envelope; only transport-level failures cause further
attempts. -/
theorem any_response_stops_retry_loop (retries : Nat)
    (transport : Nat → AttemptOutcome) (k : Nat) (status : Int)
    (body : Option Dict) (hk : 1 ≤ k)
    (hfail : ∀ i, 1 ≤ i → i < k → isFailOutcome (transport i) = true ∧ i < retries)
    (hok : transport k = .ok status body) :
    asyncRequest retries transport =
      ⟨k, k, .ok (dictSet (body.getD []) "code" (.jnum status))⟩ :=
  asyncRequest_of_response retries transport k status body hk hfail hok

/-- Witness for C5: a timeout on attempt 1 followed by an HTTP 404 response
on attempt 2 stops the loop at 2 attempts and returns the 404 envelope. -/
theorem any_response_stops_retry_loop_witness :
    asyncRequest 3 transportThenNotFound =
      ⟨2, 2, .ok [("message", .jstr "Not Found"), ("code", .jnum 404)]⟩ :=
  any_response_stops_retry_loop 3 transportThenNotFound 2 404
    (some [("message", .jstr "Not Found")]) (by omega)
    (fun i h1 h2 => by
      have hi : i = 1 := by omega
      subst hi
      exact ⟨rfl, by omega⟩)
    rfl

/-- Claim C6 (confirmed). For every paginated operation (`list_gists`,
`public_gists`, `starred_gists`, `gist_commits`, `gist_forks`), a `per_page`
that is not an integer or exceeds 100, or a `page` that is not an integer,
raises Invalid-Argument with zero network calls. -/
theorem paginated_invalid_args_raise_without_network (env : OpEnv)
    (per_page page : PyVal) (since : String) (gid : Int)
    (h : pyIsInt per_page = false ∨ pyGt per_page 100 = true ∨ pyIsInt page = false) :
    (isInvalidArgRes (list_gists env per_page page since).1 = true ∧
      (list_gists env per_page page since).2 = []) ∧
    (isInvalidArgRes (public_gists env per_page page since).1 = true ∧
      (public_gists env per_page page since).2 = []) ∧
    (isInvalidArgRes (starred_gists env per_page page since).1 = true ∧
      (starred_gists env per_page page since).2 = []) ∧
    (isInvalidArgRes (gist_commits env gid per_page page).1 = true ∧
      (gist_commits env gid per_page page).2 = []) ∧
    (isInvalidArgRes (gist_forks env gid per_page page).1 = true ∧
      (gist_forks env gid per_page page).2 = []) := by
  have hcond : (!pyIsInt per_page || pyGt per_page 100) = true ∨
      ((!pyIsInt per_page || pyGt per_page 100) = false ∧ (!pyIsInt page) = true) := by
    rcases h with h | h | h
    · left; simp [h]
    · left; simp [h]
    · by_cases hp : (!pyIsInt per_page || pyGt per_page 100) = true
      · left; exact hp
      · right; exact ⟨by simpa using hp, by simp [h]⟩
  rcases hcond with hc | ⟨hc1, hc2⟩
  · simp [list_gists, public_gists, starred_gists, gist_commits, gist_forks,
      isInvalidArgRes, hc]
  · simp [list_gists, public_gists, starred_gists, gist_commits, gist_forks,
      isInvalidArgRes, hc1, hc2]

/-- Witness for C6 at a non-integer `per_page`. -/
theorem paginated_invalid_args_witness :
    (isInvalidArgRes (list_gists envEmpty (.str "x") (.int 1) "").1 = true ∧
      (list_gists envEmpty (.str "x") (.int 1) "").2 = []) ∧
    (isInvalidArgRes (public_gists envEmpty (.str "x") (.int 1) "").1 = true ∧
      (public_gists envEmpty (.str "x") (.int 1) "").2 = []) ∧
    (isInvalidArgRes (starred_gists envEmpty (.str "x") (.int 1) "").1 = true ∧
      (starred_gists envEmpty (.str "x") (.int 1) "").2 = []) ∧
    (isInvalidArgRes (gist_commits envEmpty 7 (.str "x") (.int 1)).1 = true ∧
      (gist_commits envEmpty 7 (.str "x") (.int 1)).2 = []) ∧
    (isInvalidArgRes (gist_forks envEmpty 7 (.str "x") (.int 1)).1 = true ∧
      (gist_forks envEmpty 7 (.str "x") (.int 1)).2 = []) :=
  paginated_invalid_args_raise_without_network envEmpty (.str "x") (.int 1) "" 7
    (Or.inl rfl)

/-- Claim C7 (confirmed). Every successful exchange returns a mapping that
carries the numeric status code under the reserved key `"code"`; when the
body is absent or fails to decode as JSON the body is normalized to the
empty mapping (so the result is exactly `{"code": status}`) instead of a
decode failure being raised. -/
theorem envelope_always_carries_status_code (retries : Nat)
    (transport : Nat → AttemptOutcome) (k : Nat) (status : Int)
    (body : Option Dict) (hk : 1 ≤ k)
    (hfail : ∀ i, 1 ≤ i → i < k → isFailOutcome (transport i) = true ∧ i < retries)
    (hok : transport k = .ok status body) :
    ∃ d, (asyncRequest retries transport).result = .ok d ∧
      dictGet d "code" = some (.jnum status) ∧
      (body = none → d = [("code", .jnum status)]) := by
  have h := asyncRequest_of_response retries transport k status body hk hfail hok
  refine ⟨dictSet (body.getD []) "code" (.jnum status), ?_, ?_, ?_⟩
  · rw [h]
  · exact dictGet_dictSet_self _ _ _
  · intro hb
    rw [hb]
    rfl

/-- Witness for C7: an immediate HTTP 204 response whose body fails to
decode yields exactly `{"code": 204}`. -/
theorem envelope_always_carries_status_code_witness :
    ∃ d, (asyncRequest 0 transportEmptyBody).result = .ok d ∧
      dictGet d "code" = some (.jnum 204) ∧
      ((none : Option Dict) = none → d = [("code", .jnum 204)]) :=
  envelope_always_carries_status_code 0 transportEmptyBody 1 204 none (by omega)
    (fun i h1 h2 => absurd h1 (by omega)) rfl

/-- Claim C8 (confirmed). `create_gist` with a non-empty list of paths none
of which exists on disk raises Not-Found (`FileNotFoundError`) and performs
zero network calls. -/
theorem create_gist_missing_paths_raise_not_found (env : OpEnv)
    (paths : List String) (file_name : Option String) (description : String)
    (pub : Bool) (hne : paths ≠ [])
    (h : ∀ p ∈ paths, env.isFile p = false) :
    create_gist env (.listStr paths) file_name description pub =
      (.error (.fileNotFoundError "Unable to locate the file(s)"), []) := by
  have hc : collectFiles env paths = [] := collectFilesAux_of_none env paths [] h
  simp [create_gist, hc]

/-- Witness for C8 at a single non-existent path. -/
theorem create_gist_missing_paths_witness :
    create_gist envEmpty (.listStr ["nope.txt"]) none "" false =
      (.error (.fileNotFoundError "Unable to locate the file(s)"), []) :=
  create_gist_missing_paths_raise_not_found envEmpty ["nope.txt"] none "" false
    (by simp) (fun p _ => rfl)

/-- Claim C9 (counterexample). Against a fetched gist with no files mapping,
`update_gist` for target file `"a.txt"` returns the message
`"files not found"`, which does not reference the missing file name. -/
theorem missing_files_message_omits_filename :
    (update_gist envNoFiles (.str "new") "g1" "a.txt" "").1 =
      .ok [("message", .jstr "files not found")] ∧
    strContains "files not found" "a.txt" = false :=
  ⟨rfl, by decide⟩

/-- Claim C9 (amended). When the fetched gist lacks a files mapping,
`update_gist` returns the descriptive mapping `{"message": "files not
found"}` (which does not reference the file name); when a files mapping
exists but lacks the target name, it returns `{"message": "File '<name>'
not found in the Gist."}`, whose message references the missing file name.
In both cases the result is a returned mapping, not an exception, and only
the single fetch call is issued — no partial-update request. -/
theorem update_gist_soft_failure_results (env : OpEnv) (content : PyVal)
    (gist_id filename description : String) :
    (dictGet (env.respond ⟨"GET", "/" ++ gist_id, none, none⟩) "files" = none →
      update_gist env content gist_id filename description =
        (.ok [("message", .jstr "files not found")],
          [⟨"GET", "/" ++ gist_id, none, none⟩])) ∧
    (∀ files : Dict,
      dictGet (env.respond ⟨"GET", "/" ++ gist_id, none, none⟩) "files" =
        some (.jdict files) →
      dictGet files filename = none →
      update_gist env content gist_id filename description =
        (.ok [("message", .jstr ("File '" ++ filename ++ "' not found in the Gist."))],
          [⟨"GET", "/" ++ gist_id, none, none⟩]) ∧
      strContains ("File '" ++ filename ++ "' not found in the Gist.") filename = true) := by
  constructor
  · intro h
    simp [update_gist, h]
  · intro files h1 h2
    refine ⟨?_, ?_⟩
    · simp [update_gist, h1, jvalHasKey, h2]
    · exact strContains_of_mid "File '" filename "' not found in the Gist."

/-- Witness for the amended C9 theorem, no-files branch. -/
theorem update_gist_soft_failure_witness :
    update_gist envNoFiles (.str "new content") "g2" "b.txt" "" =
      (.ok [("message", .jstr "files not found")], [⟨"GET", "/g2", none, none⟩]) :=
  (update_gist_soft_failure_results envNoFiles (.str "new content") "g2" "b.txt" "").1 rfl

/-- Claim C10 (confirmed). For valid pagination arguments, `public_gists`
and `starred_gists` issue a fixed request descriptor carrying none of
`per_page`, `page`, `since`: two calls differing only in those arguments are
identical, descriptor and result alike. -/
theorem pagination_args_never_sent_public_starred (env : OpEnv)
    (pp1 pg1 pp2 pg2 : PyVal) (s1 s2 : String)
    (h1 : pyIsInt pp1 = true) (h2 : pyGt pp1 100 = false) (h3 : pyIsInt pg1 = true)
    (h4 : pyIsInt pp2 = true) (h5 : pyGt pp2 100 = false) (h6 : pyIsInt pg2 = true) :
    public_gists env pp1 pg1 s1 =
      (.ok (env.respond ⟨"GET", "/public", none, none⟩),
        [⟨"GET", "/public", none, none⟩]) ∧
    public_gists env pp1 pg1 s1 = public_gists env pp2 pg2 s2 ∧
    starred_gists env pp1 pg1 s1 =
      (.ok (env.respond ⟨"GET", "/starred", none, none⟩),
        [⟨"GET", "/starred", none, none⟩]) ∧
    starred_gists env pp1 pg1 s1 = starred_gists env pp2 pg2 s2 := by
  simp [public_gists, starred_gists, h1, h2, h3, h4, h5, h6]

/-- Witness for C10 at two argument pairs differing in every pagination
argument. -/
theorem pagination_args_never_sent_witness :
    public_gists envEmpty (.int 30) (.int 1) "" =
      (.ok (envEmpty.respond ⟨"GET", "/public", none, none⟩),
        [⟨"GET", "/public", none, none⟩]) ∧
    public_gists envEmpty (.int 30) (.int 1) "" =
      public_gists envEmpty (.int 50) (.int 2) "2024-01-01T00:00:00Z" ∧
    starred_gists envEmpty (.int 30) (.int 1) "" =
      (.ok (envEmpty.respond ⟨"GET", "/starred", none, none⟩),
        [⟨"GET", "/starred", none, none⟩]) ∧
    starred_gists envEmpty (.int 30) (.int 1) "" =
      starred_gists envEmpty (.int 50) (.int 2) "2024-01-01T00:00:00Z" :=
  pagination_args_never_sent_public_starred envEmpty (.int 30) (.int 1) (.int 50)
    (.int 2) "" "2024-01-01T00:00:00Z" rfl rfl rfl rfl rfl rfl

end PyGistApi
